import Mathlib

/-!
Shallow embedding of `tensorflow/compiler/jit/xla_device_context.cc`.

The file models the transfer engine of `XlaDeviceContext`:
`TransferLiteralToDevice`, `TransferLiteralFromDevice`,
`CopyCPUTensorToDevice` and `CopyDeviceTensorToCPU`, together with the
device-resident value handle (`XlaTensor`) they manipulate.

Stream activity is recorded as an explicit ordered trace of `Action`s, so
that temporal statements ("the wait is issued before the copy", "an event is
recorded before the call returns") become statements about the trace.
External outcomes that the surrounding system decides (allocation success,
stream drain status, event initialization, the transfer manager's answer to
`CanShapedBufferBeAccessedNow`) are supplied by an `Oracle` record, one per
call, so every execution path of the C++ code corresponds to some oracle
value.
-/

namespace XlaDC

/-- Result status of an operation: `ok` or an error carrying a message,
mirroring `tensorflow::Status`. -/
inductive Status where
  | ok : Status
  | err : String → Status
deriving DecidableEq, Repr

/-- The three command streams held by the transfer context. -/
inductive StreamId where
  | compute : StreamId
  | hostToDevice : StreamId
  | deviceToHost : StreamId
deriving DecidableEq, Repr

/-- Printable name of a stream, standing in for the `%p` pointer the C++
code formats into error messages. Stream identity is what matters. -/
def streamName : StreamId → String
  | StreamId.compute => "compute"
  | StreamId.hostToDevice => "host_to_device"
  | StreamId.deviceToHost => "device_to_host"

/-- Element type of a tensor, kept abstract as a code. -/
abbrev DataType := Nat

/-- A tensor shape: the list of dimension sizes. -/
abbrev TensorShape := List Nat

/-- Number of elements of a shape: the product of its dimensions. -/
def numElementsOf (s : TensorShape) : Nat := s.prod

/-- A host tensor: declared dtype and shape, plus its raw bytes
(`DMAHelper::base` / `TotalBytes` view). -/
structure Tensor where
  dtype : DataType
  shape : TensorShape
  bytes : List Nat
deriving DecidableEq, Repr

/-- `Tensor::NumElements`. -/
def Tensor.numElements (t : Tensor) : Nat := numElementsOf t.shape

/-- `Tensor::TotalBytes`. -/
def Tensor.totalBytes (t : Tensor) : Nat := t.bytes.length

/-- The device memory region owned by a bound handle: dtype, on-device
shape, device ordinal and the bytes currently resident. -/
structure ShapedBuffer where
  dtype : DataType
  shape : TensorShape
  deviceOrdinal : Nat
  mem : List Nat
deriving DecidableEq, Repr

/-- Modelled from the spec: the device-resident value handle (`XlaTensor`,
whose class body lives outside this file's source). Per the spec it lazily
owns a shaped buffer, an optional definition event together with the stream
the event was recorded on, and an optional cached host tensor. -/
structure XlaTensor where
  buffer : Option ShapedBuffer
  definitionEvent : Option (Nat × StreamId)
  hostTensor : Option Tensor
deriving DecidableEq, Repr

/-- A freshly allocated handle: empty, no event, no cached host value. -/
def emptyXlaTensor : XlaTensor := ⟨none, none, none⟩

/-- The binding signature of a handle: dtype, shape and device ordinal of
its shaped buffer when bound, `none` when empty. The spec's handle
invariant is that this is fixed from first binding to destruction. -/
def XlaTensor.boundSig (xt : XlaTensor) : Option (DataType × TensorShape × Nat) :=
  xt.buffer.map (fun b => (b.dtype, b.shape, b.deviceOrdinal))

/-- Effect on the handle of a raw byte copy into its device memory: the
resident bytes become the source bytes; an unbound handle is unchanged
(that path is unreachable because the buffer is bound beforehand). -/
def XlaTensor.rawWrite (xt : XlaTensor) (bs : List Nat) : XlaTensor :=
  match xt.buffer with
  | some b => { xt with buffer := some { b with mem := bs } }
  | none => xt

/-- A device-side tensor as the copy functions see it: a declared dtype and
shape plus the `XlaTensor` handle stored in its data slot. -/
structure DeviceTensor where
  dtype : DataType
  shape : TensorShape
  xla : XlaTensor
deriving DecidableEq, Repr

/-- One observable operation issued by the transfer engine, in program
order. Stream operations name the stream they are issued on. -/
inductive Action where
  | callShapeFn (shape : TensorShape) (dtype : DataType)
  | allocateBuffer (dtype : DataType) (shape : TensorShape)
  | waitForStream (waiter : StreamId) (waitee : StreamId)
  | transferLiteralToDev (s : StreamId)
  | transferLiteralFromDev (s : StreamId)
  | memcpyH2D (nbytes : Nat)
  | memcpyD2H (nbytes : Nat)
  | recordEvent (s : StreamId) (e : Nat)
  | waitForEvent (s : StreamId) (e : Nat)
  | blockUntilDone (s : StreamId)
  | hostCallback (s : StreamId)
deriving DecidableEq, Repr

/-- Whether an action touches any command stream (everything except the
layout-function call and the device-buffer allocation does). -/
def Action.touchesStream : Action → Bool
  | Action.callShapeFn _ _ => false
  | Action.allocateBuffer _ _ => false
  | _ => true

/-- Whether an action is a device-buffer allocation. -/
def Action.isAllocate : Action → Bool
  | Action.allocateBuffer _ _ => true
  | _ => false

/-- Whether an action records a completion event on a stream. -/
def Action.isRecordEvent : Action → Bool
  | Action.recordEvent _ _ => true
  | _ => false

/-- The transfer context state relevant to the copy functions: whether the
three streams are distinct (`UseMultipleStreams`), the transfer mode flag,
the layout-selection function and the device ordinal used for allocation. -/
structure XlaDeviceContext where
  useMultipleStreams : Bool
  transfer_as_literal : Bool
  shape_representation_fn : TensorShape → DataType → Except String TensorShape
  deviceOrdinal : Nat

/-- The default layout-selection function installed by the constructor when
none is supplied: identity on the shape. -/
def defaultShapeFn : TensorShape → DataType → Except String TensorShape :=
  fun shape _ => Except.ok shape

/-- Outcomes decided outside the transfer engine during one copy call:
the allocation status, the transfer manager's buffer-access answer, whether
the completion event initializes, the identity of the event created, the
status of the asynchronous literal transfer, the status eventually delivered
by the device-to-host literal transfer, and the result of blocking until the
transfer stream drains. -/
structure Oracle where
  allocStatus : Status
  canAccessNow : Bool
  eventInitOk : Bool
  eventId : Nat
  transferLitStatus : Status
  transferFromStatus : Status
  blockStatus : Status
deriving Repr

/-- Result of a host-to-device copy call that returned normally: the updated
destination handle, the ordered trace of issued operations, and the status
passed to `done` (always invoked synchronously on this path). -/
structure ToDeviceResult where
  xla : XlaTensor
  trace : List Action
  doneNow : Option Status
deriving DecidableEq, Repr

/-- Outcome of `CopyCPUTensorToDevice`: a normal return, or a fatal abort.
Modelled from the spec: the spec classifies event-initialization failure as
fatal/unrecoverable (the check macro guarding `event->Init()` is outside
this file's source), so that path is a distinct `fatal` outcome in which no
completion callback runs. -/
inductive ToDeviceOutcome where
  | returned (r : ToDeviceResult)
  | fatal (msg : String)
deriving DecidableEq, Repr

/-- Result of `TransferLiteralToDevice`: either a returned status together
with the updated handle and the trace of issued operations, or the fatal
event-initialization outcome. -/
inductive LitToDevResult where
  | returned (status : Status) (xla : XlaTensor) (trace : List Action)
  | fatal (msg : String)
deriving DecidableEq, Repr

/-- `XlaDeviceContext::TransferLiteralToDevice`, lines 78-114. Under
multiple streams, if the shaped buffer cannot already be accessed, the
host-to-device stream first waits for the compute stream; the asynchronous
literal transfer is then issued; under multiple streams a completion event
is recorded on the host-to-device stream and installed as the handle's
definition event (aborting if the event fails to initialize); finally a host
callback releasing the host tensor reference is enqueued. -/
def TransferLiteralToDevice (ctx : XlaDeviceContext) (orc : Oracle)
    (xt : XlaTensor) : LitToDevResult :=
  let pre : List Action :=
    if ctx.useMultipleStreams && !orc.canAccessNow then
      [Action.waitForStream StreamId.hostToDevice StreamId.compute]
    else []
  let t1 : List Action := pre ++ [Action.transferLiteralToDev StreamId.hostToDevice]
  match orc.transferLitStatus with
  | Status.err e => LitToDevResult.returned (Status.err e) xt t1
  | Status.ok =>
    if ctx.useMultipleStreams then
      if orc.eventInitOk then
        LitToDevResult.returned Status.ok
          { xt with definitionEvent := some (orc.eventId, StreamId.hostToDevice) }
          (t1 ++ [Action.recordEvent StreamId.hostToDevice orc.eventId,
                  Action.hostCallback StreamId.hostToDevice])
      else LitToDevResult.fatal "Event failed to initialize!"
    else
      LitToDevResult.returned Status.ok xt
        (t1 ++ [Action.hostCallback StreamId.hostToDevice])

/-- The body of `CopyCPUTensorToDevice` after the destination buffer is
resolved (lines 179-203): in structured mode reshape the host tensor (the
reshaping copy succeeds exactly when element counts agree — modelled from
the spec's host-value container contract, `Tensor::CopyFrom` being outside
this file's source) and hand off to `TransferLiteralToDevice`; in raw mode
issue a byte copy on the host-to-device stream and block until it drains,
naming the host-to-device stream in the error message on failure. On
success the host tensor is cached in the handle. -/
def copyToDeviceBody (ctx : XlaDeviceContext) (orc : Oracle) (cpu : Tensor)
    (shape : TensorShape) (xt : XlaTensor) (t : List Action) : ToDeviceOutcome :=
  if ctx.transfer_as_literal then
    if numElementsOf shape = cpu.numElements then
      match TransferLiteralToDevice ctx orc xt with
      | LitToDevResult.fatal m => ToDeviceOutcome.fatal m
      | LitToDevResult.returned st xt2 tr =>
        match st with
        | Status.ok =>
          ToDeviceOutcome.returned ⟨{ xt2 with hostTensor := some cpu }, t ++ tr, some Status.ok⟩
        | Status.err e =>
          ToDeviceOutcome.returned ⟨xt2, t ++ tr, some (Status.err e)⟩
    else
      ToDeviceOutcome.returned ⟨xt, t,
        some (Status.err "Tensor::CopyFrom failed when copying from CPU to XLA device")⟩
  else
    let xt2 : XlaTensor := xt.rawWrite cpu.bytes
    let t2 : List Action :=
      t ++ [Action.memcpyH2D cpu.totalBytes, Action.blockUntilDone StreamId.hostToDevice]
    match orc.blockStatus with
    | Status.ok =>
      ToDeviceOutcome.returned ⟨{ xt2 with hostTensor := some cpu }, t2, some Status.ok⟩
    | Status.err e =>
      ToDeviceOutcome.returned ⟨xt2, t2,
        some (Status.err ("Failed to complete data transfer on stream "
          ++ streamName StreamId.hostToDevice ++ ": " ++ e))⟩

/-- `XlaDeviceContext::CopyCPUTensorToDevice`, lines 138-204. Zero-element
tensors succeed immediately with no activity. Otherwise the layout-selection
function resolves the on-device shape (failure: surfaced, stop); a shaped
buffer is allocated only when the handle has none yet (failure: surfaced,
handle untouched — the spec states a failed binding leaves the destination
empty, the allocation method being outside this file's source); then the
mode-specific body runs. -/
def CopyCPUTensorToDevice (ctx : XlaDeviceContext) (orc : Oracle)
    (cpu : Tensor) (dev : DeviceTensor) : ToDeviceOutcome :=
  if cpu.numElements = 0 then
    ToDeviceOutcome.returned ⟨dev.xla, [], some Status.ok⟩
  else
    let t0 : List Action := [Action.callShapeFn dev.shape dev.dtype]
    match ctx.shape_representation_fn dev.shape dev.dtype with
    | Except.error e => ToDeviceOutcome.returned ⟨dev.xla, t0, some (Status.err e)⟩
    | Except.ok shape =>
      match dev.xla.buffer with
      | some _ => copyToDeviceBody ctx orc cpu shape dev.xla t0
      | none =>
        let t1 : List Action := t0 ++ [Action.allocateBuffer dev.dtype shape]
        match orc.allocStatus with
        | Status.err e => ToDeviceOutcome.returned ⟨dev.xla, t1, some (Status.err e)⟩
        | Status.ok =>
          copyToDeviceBody ctx orc cpu shape
            { dev.xla with buffer := some ⟨dev.dtype, shape, ctx.deviceOrdinal, []⟩ } t1

/-- Result of a device-to-host copy call: the destination host buffer's
bytes after the call, the trace of issued operations, the status passed to
`done` synchronously (raw mode), and the status the asynchronous completion
callback will forward later (structured mode). -/
structure FromDeviceResult where
  hostBytes : List Nat
  trace : List Action
  doneNow : Option Status
  donePending : Option Status
deriving DecidableEq, Repr

/-- Modelled from the spec: `XlaTensor::WaitForDefinitionEventOnStream`
(outside this file's source) — wait on the given stream for the handle's
definition event when one is set, otherwise do nothing. -/
def waitForDefinitionEventOnStream (xt : XlaTensor) (s : StreamId) : List Action :=
  match xt.definitionEvent with
  | some (e, _) => [Action.waitForEvent s e]
  | none => []

/-- `XlaDeviceContext::CopyDeviceTensorToCPU`, lines 206-247 (with
`TransferLiteralFromDevice`, lines 116-136, inlined as the structured
branch). Zero-element tensors succeed immediately with no activity.
Otherwise the engine first waits on the device-to-host stream for the
source's definition event; structured mode issues the asynchronous literal
transfer whose completion callback later forwards its status to `done`; raw
mode issues a byte copy on the device-to-host stream, blocks until it
drains, and on failure formats the compute stream (the member `stream_`)
into the error message, then invokes `done` synchronously. -/
def CopyDeviceTensorToCPU (ctx : XlaDeviceContext) (orc : Oracle)
    (dev : DeviceTensor) (cpu : Tensor) : FromDeviceResult :=
  if numElementsOf dev.shape = 0 then
    ⟨cpu.bytes, [], some Status.ok, none⟩
  else
    let t0 : List Action := waitForDefinitionEventOnStream dev.xla StreamId.deviceToHost
    if ctx.transfer_as_literal then
      ⟨cpu.bytes, t0 ++ [Action.transferLiteralFromDev StreamId.deviceToHost],
        none, some orc.transferFromStatus⟩
    else
      let devMem : List Nat :=
        match dev.xla.buffer with
        | some b => b.mem
        | none => []
      let newBytes : List Nat :=
        devMem.take cpu.totalBytes ++ cpu.bytes.drop cpu.totalBytes
      let t1 : List Action :=
        t0 ++ [Action.memcpyD2H cpu.totalBytes, Action.blockUntilDone StreamId.deviceToHost]
      match orc.blockStatus with
      | Status.ok => ⟨newBytes, t1, some Status.ok, none⟩
      | Status.err e =>
        ⟨newBytes, t1,
          some (Status.err ("Failed to complete data transfer on stream "
            ++ streamName StreamId.compute ++ ": " ++ e)), none⟩

/-- Repeated `CopyCPUTensorToDevice` calls against one destination handle,
each with its own oracle and host tensor; `none` when some call aborted
fatally. -/
def runCopies (ctx : XlaDeviceContext) (dev : DeviceTensor) :
    List (Oracle × Tensor) → Option DeviceTensor
  | [] => some dev
  | (orc, cpu) :: rest =>
    match CopyCPUTensorToDevice ctx orc cpu dev with
    | ToDeviceOutcome.returned r => runCopies ctx { dev with xla := r.xla } rest
    | ToDeviceOutcome.fatal _ => none

/-! ### Basic facts about the helper operations -/

lemma rawWrite_definitionEvent (xt : XlaTensor) (bs : List Nat) :
    (xt.rawWrite bs).definitionEvent = xt.definitionEvent := by
  obtain ⟨b, d, h⟩ := xt
  cases b <;> rfl

lemma rawWrite_boundSig (xt : XlaTensor) (bs : List Nat) :
    (xt.rawWrite bs).boundSig = xt.boundSig := by
  obtain ⟨b, d, h⟩ := xt
  cases b <;> rfl

lemma rawWrite_bound_mem (xt : XlaTensor) (b : ShapedBuffer) (bs : List Nat)
    (h : xt.buffer = some b) :
    (xt.rawWrite bs).buffer = some { b with mem := bs } := by
  unfold XlaTensor.rawWrite
  rw [h]

/-- Unfolding of `CopyCPUTensorToDevice` on a non-empty host tensor once
the layout function has answered. -/
lemma copyToDevice_nonempty (ctx : XlaDeviceContext) (orc : Oracle)
    (cpu : Tensor) (dev : DeviceTensor) (s : TensorShape)
    (hne : cpu.numElements ≠ 0)
    (hsh : ctx.shape_representation_fn dev.shape dev.dtype = Except.ok s) :
    CopyCPUTensorToDevice ctx orc cpu dev =
      (match dev.xla.buffer with
       | some _ =>
         copyToDeviceBody ctx orc cpu s dev.xla [Action.callShapeFn dev.shape dev.dtype]
       | none =>
         match orc.allocStatus with
         | Status.err e =>
           ToDeviceOutcome.returned ⟨dev.xla,
             [Action.callShapeFn dev.shape dev.dtype, Action.allocateBuffer dev.dtype s],
             some (Status.err e)⟩
         | Status.ok =>
           copyToDeviceBody ctx orc cpu s
             { dev.xla with buffer := some ⟨dev.dtype, s, ctx.deviceOrdinal, []⟩ }
             [Action.callShapeFn dev.shape dev.dtype, Action.allocateBuffer dev.dtype s]) := by
  simp only [CopyCPUTensorToDevice, if_neg hne, hsh]
  rfl

/-- In structured mode, a mismatched element count makes the reshaping copy
fail before any stream activity. -/
lemma copyBody_lit_mismatch (ctx : XlaDeviceContext) (orc : Oracle) (cpu : Tensor)
    (shape : TensorShape) (xt : XlaTensor) (t : List Action)
    (hlit : ctx.transfer_as_literal = true)
    (hmm : numElementsOf shape ≠ cpu.numElements) :
    copyToDeviceBody ctx orc cpu shape xt t =
      ToDeviceOutcome.returned ⟨xt, t,
        some (Status.err "Tensor::CopyFrom failed when copying from CPU to XLA device")⟩ := by
  simp only [copyToDeviceBody, hlit, if_pos, if_neg hmm, ite_true]

/-- The successful structured multi-stream path: the transfer is issued
(after an optional wait on the compute stream), an event is recorded and
installed as the definition event, and the host callback is enqueued. -/
lemma copyBody_lit_success (ctx : XlaDeviceContext) (orc : Oracle) (cpu : Tensor)
    (shape : TensorShape) (xt : XlaTensor) (t : List Action)
    (hlit : ctx.transfer_as_literal = true)
    (hms : ctx.useMultipleStreams = true)
    (hcf : numElementsOf shape = cpu.numElements)
    (htl : orc.transferLitStatus = Status.ok)
    (hev : orc.eventInitOk = true) :
    copyToDeviceBody ctx orc cpu shape xt t =
      ToDeviceOutcome.returned
        ⟨{ xt with definitionEvent := some (orc.eventId, StreamId.hostToDevice),
                   hostTensor := some cpu },
         t ++ ((if orc.canAccessNow then []
                else [Action.waitForStream StreamId.hostToDevice StreamId.compute])
           ++ [Action.transferLiteralToDev StreamId.hostToDevice,
               Action.recordEvent StreamId.hostToDevice orc.eventId,
               Action.hostCallback StreamId.hostToDevice]),
         some Status.ok⟩ := by
  simp only [copyToDeviceBody, TransferLiteralToDevice, hlit, hms, hcf, htl, hev,
    ite_true, if_pos, Bool.true_and]
  cases hacc : orc.canAccessNow <;> simp

/-- The structured multi-stream path with a failing event initialization is
the fatal outcome. -/
lemma copyBody_lit_fatal (ctx : XlaDeviceContext) (orc : Oracle) (cpu : Tensor)
    (shape : TensorShape) (xt : XlaTensor) (t : List Action)
    (hlit : ctx.transfer_as_literal = true)
    (hms : ctx.useMultipleStreams = true)
    (hcf : numElementsOf shape = cpu.numElements)
    (htl : orc.transferLitStatus = Status.ok)
    (hev : orc.eventInitOk = false) :
    copyToDeviceBody ctx orc cpu shape xt t =
      ToDeviceOutcome.fatal "Event failed to initialize!" := by
  simp only [copyToDeviceBody, TransferLiteralToDevice, hlit, hms, hcf, htl, hev,
    ite_true, if_pos, Bool.true_and]
  cases hacc : orc.canAccessNow <;> simp

/-- The successful structured single-stream path: no wait, no event. -/
lemma copyBody_lit_single (ctx : XlaDeviceContext) (orc : Oracle) (cpu : Tensor)
    (shape : TensorShape) (xt : XlaTensor) (t : List Action)
    (hlit : ctx.transfer_as_literal = true)
    (hms : ctx.useMultipleStreams = false)
    (hcf : numElementsOf shape = cpu.numElements)
    (htl : orc.transferLitStatus = Status.ok) :
    copyToDeviceBody ctx orc cpu shape xt t =
      ToDeviceOutcome.returned
        ⟨{ xt with hostTensor := some cpu },
         t ++ [Action.transferLiteralToDev StreamId.hostToDevice,
               Action.hostCallback StreamId.hostToDevice],
         some Status.ok⟩ := by
  simp only [copyToDeviceBody, TransferLiteralToDevice, hlit, hms, hcf, htl,
    ite_true, if_pos, Bool.false_and, if_neg, ite_false]
  simp

/-- The structured path when the asynchronous literal transfer itself
reports an error: the status is surfaced, no event is recorded. -/
lemma copyBody_lit_translit_err (ctx : XlaDeviceContext) (orc : Oracle) (cpu : Tensor)
    (shape : TensorShape) (xt : XlaTensor) (t : List Action) (e : String)
    (hlit : ctx.transfer_as_literal = true)
    (hcf : numElementsOf shape = cpu.numElements)
    (htl : orc.transferLitStatus = Status.err e) :
    copyToDeviceBody ctx orc cpu shape xt t =
      ToDeviceOutcome.returned
        ⟨xt,
         t ++ ((if ctx.useMultipleStreams && !orc.canAccessNow then
                  [Action.waitForStream StreamId.hostToDevice StreamId.compute]
                else [])
           ++ [Action.transferLiteralToDev StreamId.hostToDevice]),
         some (Status.err e)⟩ := by
  simp only [copyToDeviceBody, TransferLiteralToDevice, hlit, hcf, htl, ite_true, if_pos]

/-- The raw byte-copy path with a clean drain. -/
lemma copyBody_raw_ok (ctx : XlaDeviceContext) (orc : Oracle) (cpu : Tensor)
    (shape : TensorShape) (xt : XlaTensor) (t : List Action)
    (hraw : ctx.transfer_as_literal = false)
    (hblk : orc.blockStatus = Status.ok) :
    copyToDeviceBody ctx orc cpu shape xt t =
      ToDeviceOutcome.returned
        ⟨{ xt.rawWrite cpu.bytes with hostTensor := some cpu },
         t ++ [Action.memcpyH2D cpu.totalBytes, Action.blockUntilDone StreamId.hostToDevice],
         some Status.ok⟩ := by
  simp only [copyToDeviceBody, hraw, hblk, Bool.false_eq_true, if_false, ite_false]

/-- The raw byte-copy path with a failing drain: the error message names
the host-to-device stream. -/
lemma copyBody_raw_err (ctx : XlaDeviceContext) (orc : Oracle) (cpu : Tensor)
    (shape : TensorShape) (xt : XlaTensor) (t : List Action) (e : String)
    (hraw : ctx.transfer_as_literal = false)
    (hblk : orc.blockStatus = Status.err e) :
    copyToDeviceBody ctx orc cpu shape xt t =
      ToDeviceOutcome.returned
        ⟨xt.rawWrite cpu.bytes,
         t ++ [Action.memcpyH2D cpu.totalBytes, Action.blockUntilDone StreamId.hostToDevice],
         some (Status.err ("Failed to complete data transfer on stream "
           ++ streamName StreamId.hostToDevice ++ ": " ++ e))⟩ := by
  simp only [copyToDeviceBody, hraw, hblk, Bool.false_eq_true, if_false, ite_false]

/-- The raw device-to-host path on a bound handle with a clean drain. -/
lemma copyFromDevice_raw_ok (ctx : XlaDeviceContext) (orc : Oracle)
    (dev : DeviceTensor) (cpu : Tensor) (b : ShapedBuffer)
    (hraw : ctx.transfer_as_literal = false)
    (hne : numElementsOf dev.shape ≠ 0)
    (hb : dev.xla.buffer = some b)
    (hblk : orc.blockStatus = Status.ok) :
    CopyDeviceTensorToCPU ctx orc dev cpu =
      ⟨b.mem.take cpu.totalBytes ++ cpu.bytes.drop cpu.totalBytes,
       waitForDefinitionEventOnStream dev.xla StreamId.deviceToHost
         ++ [Action.memcpyD2H cpu.totalBytes, Action.blockUntilDone StreamId.deviceToHost],
       some Status.ok, none⟩ := by
  simp only [CopyDeviceTensorToCPU, if_neg hne, hraw, hb, hblk,
    Bool.false_eq_true, if_false, ite_false]

/-- Any normal return of the mode-specific body keeps the binding signature
of the handle, and only appends non-allocation actions to the trace. -/
lemma copyBody_returned_facts (ctx : XlaDeviceContext) (orc : Oracle) (cpu : Tensor)
    (shape : TensorShape) (xt : XlaTensor) (t : List Action) (r : ToDeviceResult)
    (hr : copyToDeviceBody ctx orc cpu shape xt t = ToDeviceOutcome.returned r) :
    r.xla.boundSig = xt.boundSig ∧
    (∃ rest, r.trace = t ++ rest ∧ rest.all (fun a => !a.isAllocate) = true) := by
  cases hlit : ctx.transfer_as_literal with
  | true =>
    by_cases hcf : numElementsOf shape = cpu.numElements
    · cases htl : orc.transferLitStatus with
      | err e =>
        rw [copyBody_lit_translit_err ctx orc cpu shape xt t e hlit hcf htl] at hr
        injection hr with h
        subst h
        refine ⟨rfl, _, rfl, ?_⟩
        split <;> simp [Action.isAllocate]
      | ok =>
        cases hms : ctx.useMultipleStreams with
        | true =>
          cases hev : orc.eventInitOk with
          | true =>
            rw [copyBody_lit_success ctx orc cpu shape xt t hlit hms hcf htl hev] at hr
            injection hr with h
            subst h
            refine ⟨by simp [XlaTensor.boundSig], _, rfl, ?_⟩
            split <;> simp [Action.isAllocate]
          | false =>
            rw [copyBody_lit_fatal ctx orc cpu shape xt t hlit hms hcf htl hev] at hr
            simp at hr
        | false =>
          rw [copyBody_lit_single ctx orc cpu shape xt t hlit hms hcf htl] at hr
          injection hr with h
          subst h
          exact ⟨by simp [XlaTensor.boundSig], _, rfl, by simp [Action.isAllocate]⟩
    · rw [copyBody_lit_mismatch ctx orc cpu shape xt t hlit hcf] at hr
      injection hr with h
      subst h
      exact ⟨rfl, [], by simp, by simp⟩
  | false =>
    cases hblk : orc.blockStatus with
    | ok =>
      rw [copyBody_raw_ok ctx orc cpu shape xt t hlit hblk] at hr
      injection hr with h
      subst h
      refine ⟨?_, _, rfl, by simp [Action.isAllocate]⟩
      have := rawWrite_boundSig xt cpu.bytes
      simp only [XlaTensor.boundSig] at this ⊢
      exact this
    | err e =>
      rw [copyBody_raw_err ctx orc cpu shape xt t e hlit hblk] at hr
      injection hr with h
      subst h
      exact ⟨rawWrite_boundSig xt cpu.bytes, _, rfl, by simp [Action.isAllocate]⟩

/-- One host-to-device copy that returns normally never changes the binding
signature of an already bound handle. -/
lemma copy_preserves_boundSig (ctx : XlaDeviceContext) (orc : Oracle) (cpu : Tensor)
    (dev : DeviceTensor) (sig : DataType × TensorShape × Nat)
    (h : dev.xla.boundSig = some sig) (r : ToDeviceResult)
    (hr : CopyCPUTensorToDevice ctx orc cpu dev = ToDeviceOutcome.returned r) :
    r.xla.boundSig = some sig := by
  by_cases hz : cpu.numElements = 0
  · unfold CopyCPUTensorToDevice at hr
    rw [if_pos hz] at hr
    injection hr with h1
    subst h1
    exact h
  · cases hsh : ctx.shape_representation_fn dev.shape dev.dtype with
    | error e =>
      simp only [CopyCPUTensorToDevice, if_neg hz, hsh] at hr
      injection hr with h1
      subst h1
      exact h
    | ok s =>
      rw [copyToDevice_nonempty ctx orc cpu dev s hz hsh] at hr
      cases hb : dev.xla.buffer with
      | none => simp [XlaTensor.boundSig, hb] at h
      | some b =>
        simp only [hb] at hr
        rw [(copyBody_returned_facts ctx orc cpu s dev.xla
          [Action.callShapeFn dev.shape dev.dtype] r hr).1]
        exact h

/-- Across any sequence of host-to-device copies that do not abort, a bound
handle keeps its binding signature. -/
lemma runCopies_preserves_boundSig (ctx : XlaDeviceContext) :
    ∀ (calls : List (Oracle × Tensor)) (dev dev2 : DeviceTensor)
      (sig : DataType × TensorShape × Nat),
      dev.xla.boundSig = some sig → runCopies ctx dev calls = some dev2 →
      dev2.xla.boundSig = some sig := by
  intro calls
  induction calls with
  | nil =>
    intro dev dev2 sig h hrun
    simp only [runCopies, Option.some.injEq] at hrun
    subst hrun
    exact h
  | cons c rest ih =>
    intro dev dev2 sig h hrun
    obtain ⟨orc, cpu⟩ := c
    unfold runCopies at hrun
    cases hc : CopyCPUTensorToDevice ctx orc cpu dev with
    | returned r =>
      simp only [hc] at hrun
      exact ih _ dev2 sig (copy_preserves_boundSig ctx orc cpu dev sig h r hc) hrun
    | fatal m =>
      simp only [hc] at hrun
      simp at hrun

/-- On an already bound handle, a host-to-device copy that returns normally
performs no device-buffer allocation. -/
lemma copy_bound_no_allocate (ctx : XlaDeviceContext) (orc : Oracle) (cpu : Tensor)
    (dev : DeviceTensor) (hb : dev.xla.buffer.isSome = true) (r : ToDeviceResult)
    (hr : CopyCPUTensorToDevice ctx orc cpu dev = ToDeviceOutcome.returned r) :
    r.trace.all (fun a => !a.isAllocate) = true := by
  by_cases hz : cpu.numElements = 0
  · unfold CopyCPUTensorToDevice at hr
    rw [if_pos hz] at hr
    injection hr with h1
    subst h1
    simp
  · cases hsh : ctx.shape_representation_fn dev.shape dev.dtype with
    | error e =>
      simp only [CopyCPUTensorToDevice, if_neg hz, hsh] at hr
      injection hr with h1
      subst h1
      simp [Action.isAllocate]
    | ok s =>
      rw [copyToDevice_nonempty ctx orc cpu dev s hz hsh] at hr
      cases hbb : dev.xla.buffer with
      | none => rw [hbb] at hb; simp at hb
      | some b =>
        simp only [hbb] at hr
        obtain ⟨-, rest, htr, hall⟩ := copyBody_returned_facts ctx orc cpu s dev.xla
          [Action.callShapeFn dev.shape dev.dtype] r hr
        rw [htr]
        simp only [List.all_append, Bool.and_eq_true]
        exact ⟨by simp [Action.isAllocate], hall⟩

/-- The status handed to `done` synchronously by a host-to-device copy,
`none` when the call aborted fatally. -/
def ToDeviceOutcome.doneOf : ToDeviceOutcome → Option Status
  | ToDeviceOutcome.returned r => r.doneNow
  | ToDeviceOutcome.fatal _ => none

/-! ### Concrete instances used by the witnesses -/

/-- A layout-selection function that rejects every shape. -/
def shapeFnReject : TensorShape → DataType → Except String TensorShape :=
  fun _ _ => Except.error "bad shape"

/-- Multi-stream context in raw byte-copy mode with the default layout
function. -/
def ctxRawMulti : XlaDeviceContext := ⟨true, false, defaultShapeFn, 0⟩

/-- Multi-stream context in structured (literal) mode. -/
def ctxLitMulti : XlaDeviceContext := ⟨true, true, defaultShapeFn, 0⟩

/-- Single-stream context in structured (literal) mode. -/
def ctxLitSingle : XlaDeviceContext := ⟨false, true, defaultShapeFn, 0⟩

/-- Structured-mode context whose layout function always fails. -/
def ctxLitReject : XlaDeviceContext := ⟨true, true, shapeFnReject, 0⟩

/-- An execution where every external step succeeds and the buffer is not
yet accessible coincident with the compute stream. -/
def orcGood : Oracle := ⟨Status.ok, false, true, 7, Status.ok, Status.ok, Status.ok⟩

/-- As `orcGood`, but buffer access is already guaranteed. -/
def orcAccessNow : Oracle := ⟨Status.ok, true, true, 7, Status.ok, Status.ok, Status.ok⟩

/-- An execution where the device-buffer allocation fails. -/
def orcAllocFail : Oracle := ⟨Status.err "nomem", false, true, 7, Status.ok, Status.ok, Status.ok⟩

/-- An execution where blocking on the transfer stream reports an error. -/
def orcBlockFail : Oracle := ⟨Status.ok, false, true, 7, Status.ok, Status.ok, Status.err "boom"⟩

/-- An execution where the completion event fails to initialize. -/
def orcEventFail : Oracle := ⟨Status.ok, false, false, 7, Status.ok, Status.ok, Status.ok⟩

/-- A host tensor with two elements and eight bytes. -/
def hostA : Tensor := ⟨3, [2], [10, 20, 30, 40, 50, 60, 70, 80]⟩

/-- A zeroed host destination buffer of the same byte size as `hostA`. -/
def hostDst : Tensor := ⟨3, [2], [0, 0, 0, 0, 0, 0, 0, 0]⟩

/-- A zero-element host tensor. -/
def hostZero : Tensor := ⟨3, [0], []⟩

/-- A three-element host tensor, mismatching shape `[2]`. -/
def hostMism : Tensor := ⟨3, [3], [1, 2, 3]⟩

/-- A device tensor whose handle is still empty. -/
def devEmpty : DeviceTensor := ⟨3, [2], emptyXlaTensor⟩

/-- A device tensor whose handle is bound with resident bytes. -/
def devBound : DeviceTensor :=
  ⟨3, [2], ⟨some ⟨3, [2], 0, [10, 20, 30, 40, 50, 60, 70, 80]⟩, none, none⟩⟩

/-- A zero-element device tensor. -/
def devZero : DeviceTensor := ⟨3, [0], emptyXlaTensor⟩

/-- The device tensor produced by one raw-mode copy of `hostA` into
`devBound`. -/
def devRound : DeviceTensor :=
  ⟨3, [2], ⟨some ⟨3, [2], 0, [10, 20, 30, 40, 50, 60, 70, 80]⟩, none, some hostA⟩⟩

/-- The result record of that raw-mode copy. -/
def rBound : ToDeviceResult :=
  ⟨devRound.xla,
   [Action.callShapeFn [2] 3, Action.memcpyH2D 8, Action.blockUntilDone StreamId.hostToDevice],
   some Status.ok⟩

/-! ### The claims -/

/-- C3: a zero-element host or device value makes the corresponding copy
call invoke `done` with success immediately and return with an empty trace:
no device-buffer allocation, no layout-function call, and no stream
activity. -/
theorem zero_element_copies_no_activity (ctx : XlaDeviceContext) (orc : Oracle)
    (cpu : Tensor) (dev : DeviceTensor) :
    (cpu.numElements = 0 →
      CopyCPUTensorToDevice ctx orc cpu dev =
        ToDeviceOutcome.returned ⟨dev.xla, [], some Status.ok⟩) ∧
    (numElementsOf dev.shape = 0 →
      CopyDeviceTensorToCPU ctx orc dev cpu = ⟨cpu.bytes, [], some Status.ok, none⟩) := by
  constructor
  · intro h
    unfold CopyCPUTensorToDevice
    rw [if_pos h]
  · intro h
    unfold CopyDeviceTensorToCPU
    rw [if_pos h]

/-- Witness for C3 at a zero-element host tensor and a zero-element device
tensor. -/
theorem zero_element_copies_no_activity_witness :
    CopyCPUTensorToDevice ctxRawMulti orcGood hostZero devBound =
      ToDeviceOutcome.returned ⟨devBound.xla, [], some Status.ok⟩ ∧
    CopyDeviceTensorToCPU ctxRawMulti orcGood devZero hostA =
      ⟨hostA.bytes, [], some Status.ok, none⟩ :=
  ⟨(zero_element_copies_no_activity ctxRawMulti orcGood hostZero devBound).1 (by decide),
   (zero_element_copies_no_activity ctxRawMulti orcGood hostA devZero).2 (by decide)⟩

/-- C4: when the layout-selection function fails on a non-empty transfer,
`done` receives exactly that error, the handle is untouched, and the trace
holds only the layout-function call — no allocation and no stream
activity. -/
theorem layout_failure_stops_transfer (ctx : XlaDeviceContext) (orc : Oracle)
    (cpu : Tensor) (dev : DeviceTensor) (e : String)
    (hne : cpu.numElements ≠ 0)
    (hsh : ctx.shape_representation_fn dev.shape dev.dtype = Except.error e) :
    CopyCPUTensorToDevice ctx orc cpu dev =
      ToDeviceOutcome.returned ⟨dev.xla, [Action.callShapeFn dev.shape dev.dtype],
        some (Status.err e)⟩ := by
  simp only [CopyCPUTensorToDevice, if_neg hne, hsh]

/-- Witness for C4 with the always-rejecting layout function. -/
theorem layout_failure_stops_transfer_witness :
    CopyCPUTensorToDevice ctxLitReject orcGood hostA devEmpty =
      ToDeviceOutcome.returned ⟨devEmpty.xla, [Action.callShapeFn [2] 3],
        some (Status.err "bad shape")⟩ :=
  layout_failure_stops_transfer ctxLitReject orcGood hostA devEmpty "bad shape"
    (by decide) rfl

/-- C2: a destination handle binds at most once: a bound handle keeps its
binding signature (dtype, shape, device ordinal) across any sequence of
copies that return, a copy on a bound handle performs no allocation, and an
allocation failure surfaces through `done` and leaves the destination
unbound. -/
theorem handle_binds_at_most_once (ctx : XlaDeviceContext) (orc : Oracle)
    (cpu : Tensor) (dev : DeviceTensor) (calls : List (Oracle × Tensor))
    (dev2 : DeviceTensor) (sig : DataType × TensorShape × Nat)
    (s : TensorShape) (e : String) :
    (dev.xla.boundSig = some sig → runCopies ctx dev calls = some dev2 →
      dev2.xla.boundSig = some sig) ∧
    (dev.xla.buffer.isSome = true →
      ∀ r, CopyCPUTensorToDevice ctx orc cpu dev = ToDeviceOutcome.returned r →
        r.trace.all (fun a => !a.isAllocate) = true) ∧
    (dev.xla.buffer = none → cpu.numElements ≠ 0 →
      ctx.shape_representation_fn dev.shape dev.dtype = Except.ok s →
      orc.allocStatus = Status.err e →
      CopyCPUTensorToDevice ctx orc cpu dev =
        ToDeviceOutcome.returned ⟨dev.xla,
          [Action.callShapeFn dev.shape dev.dtype, Action.allocateBuffer dev.dtype s],
          some (Status.err e)⟩) := by
  refine ⟨fun h hrun => runCopies_preserves_boundSig ctx calls dev dev2 sig h hrun,
          fun hb r hr => copy_bound_no_allocate ctx orc cpu dev hb r hr,
          fun hb hne hsh hal => ?_⟩
  rw [copyToDevice_nonempty ctx orc cpu dev s hne hsh]
  simp only [hb, hal]

/-- Witness for C2: the preserved signature after one raw copy, the
allocation-free trace on a bound handle, and a failing allocation leaving
the empty handle empty. -/
theorem handle_binds_at_most_once_witness :
    devRound.xla.boundSig = some (3, [2], 0) ∧
    rBound.trace.all (fun a => !a.isAllocate) = true ∧
    CopyCPUTensorToDevice ctxRawMulti orcAllocFail hostA devEmpty =
      ToDeviceOutcome.returned ⟨devEmpty.xla,
        [Action.callShapeFn [2] 3, Action.allocateBuffer 3 [2]],
        some (Status.err "nomem")⟩ :=
  ⟨(handle_binds_at_most_once ctxRawMulti orcGood hostA devBound [(orcGood, hostA)]
      devRound (3, [2], 0) [2] "x").1 (by decide) (by decide),
   (handle_binds_at_most_once ctxRawMulti orcGood hostA devBound [] devBound
      (3, [2], 0) [2] "x").2.1 (by decide) rBound (by decide),
   (handle_binds_at_most_once ctxRawMulti orcAllocFail hostA devEmpty [] devEmpty
      (3, [2], 0) [2] "nomem").2.2 rfl (by decide) rfl rfl⟩

/-- C5: non-empty raw byte-copy transfers block until the transfer stream
drains and invoke `done` synchronously before returning, and no definition
event is ever recorded: the host-to-device copy leaves the handle's
definition-event field unchanged and records no event, and the
device-to-host copy also blocks and completes synchronously with nothing
pending. -/
theorem raw_mode_synchronous_no_event (ctx : XlaDeviceContext) (orc orc2 : Oracle)
    (cpu cpu2 : Tensor) (dev dev2 : DeviceTensor) (s : TensorShape)
    (hraw : ctx.transfer_as_literal = false)
    (hne : cpu.numElements ≠ 0)
    (hsh : ctx.shape_representation_fn dev.shape dev.dtype = Except.ok s)
    (hal : orc.allocStatus = Status.ok)
    (hne2 : numElementsOf dev2.shape ≠ 0) :
    (∃ r, CopyCPUTensorToDevice ctx orc cpu dev = ToDeviceOutcome.returned r ∧
      r.doneNow.isSome = true ∧
      Action.blockUntilDone StreamId.hostToDevice ∈ r.trace ∧
      r.trace.all (fun a => !a.isRecordEvent) = true ∧
      r.xla.definitionEvent = dev.xla.definitionEvent) ∧
    ((CopyDeviceTensorToCPU ctx orc2 dev2 cpu2).doneNow.isSome = true ∧
      (CopyDeviceTensorToCPU ctx orc2 dev2 cpu2).donePending = none ∧
      Action.blockUntilDone StreamId.deviceToHost ∈
        (CopyDeviceTensorToCPU ctx orc2 dev2 cpu2).trace) := by
  constructor
  · rw [copyToDevice_nonempty ctx orc cpu dev s hne hsh]
    cases hb : dev.xla.buffer with
    | some b =>
      simp only [hb]
      cases hblk : orc.blockStatus with
      | ok =>
        rw [copyBody_raw_ok _ _ _ _ _ _ hraw hblk]
        refine ⟨_, rfl, rfl, by simp, by simp [Action.isRecordEvent], ?_⟩
        exact rawWrite_definitionEvent dev.xla cpu.bytes
      | err e =>
        rw [copyBody_raw_err _ _ _ _ _ _ e hraw hblk]
        refine ⟨_, rfl, rfl, by simp, by simp [Action.isRecordEvent], ?_⟩
        exact rawWrite_definitionEvent dev.xla cpu.bytes
    | none =>
      simp only [hb, hal]
      cases hblk : orc.blockStatus with
      | ok =>
        rw [copyBody_raw_ok _ _ _ _ _ _ hraw hblk]
        refine ⟨_, rfl, rfl, by simp, by simp [Action.isRecordEvent], ?_⟩
        exact rawWrite_definitionEvent _ cpu.bytes
      | err e =>
        rw [copyBody_raw_err _ _ _ _ _ _ e hraw hblk]
        refine ⟨_, rfl, rfl, by simp, by simp [Action.isRecordEvent], ?_⟩
        exact rawWrite_definitionEvent _ cpu.bytes
  · simp only [CopyDeviceTensorToCPU, if_neg hne2, hraw, Bool.false_eq_true, if_false,
      ite_false]
    cases hblk : orc2.blockStatus <;> simp [hblk]

/-- Witness for C5: a raw copy into an empty handle, and a raw read of a
bound handle. -/
theorem raw_mode_synchronous_no_event_witness :
    (∃ r, CopyCPUTensorToDevice ctxRawMulti orcGood hostA devEmpty =
        ToDeviceOutcome.returned r ∧
      r.doneNow.isSome = true ∧
      Action.blockUntilDone StreamId.hostToDevice ∈ r.trace ∧
      r.trace.all (fun a => !a.isRecordEvent) = true ∧
      r.xla.definitionEvent = devEmpty.xla.definitionEvent) ∧
    ((CopyDeviceTensorToCPU ctxRawMulti orcGood devBound hostDst).doneNow.isSome = true ∧
      (CopyDeviceTensorToCPU ctxRawMulti orcGood devBound hostDst).donePending = none ∧
      Action.blockUntilDone StreamId.deviceToHost ∈
        (CopyDeviceTensorToCPU ctxRawMulti orcGood devBound hostDst).trace) :=
  raw_mode_synchronous_no_event ctxRawMulti orcGood orcGood hostA hostDst devEmpty
    devBound [2] rfl (by decide) rfl rfl (by decide)

/-- C6: raw-mode round trip: a successful host-to-device copy of `x`
followed by a successful device-to-host copy into a buffer of the same
total byte size yields exactly the bytes of `x`. -/
theorem raw_mode_roundtrip_bytes (ctx : XlaDeviceContext) (orc orc2 : Oracle)
    (x cpuDst : Tensor) (dev : DeviceTensor) (s : TensorShape)
    (hraw : ctx.transfer_as_literal = false)
    (hne : x.numElements ≠ 0)
    (hdev : numElementsOf dev.shape ≠ 0)
    (hsh : ctx.shape_representation_fn dev.shape dev.dtype = Except.ok s)
    (hal : orc.allocStatus = Status.ok)
    (hblk : orc.blockStatus = Status.ok)
    (hblk2 : orc2.blockStatus = Status.ok)
    (hsize : cpuDst.totalBytes = x.totalBytes) :
    ∃ r, CopyCPUTensorToDevice ctx orc x dev = ToDeviceOutcome.returned r ∧
      r.doneNow = some Status.ok ∧
      (CopyDeviceTensorToCPU ctx orc2 { dev with xla := r.xla } cpuDst).doneNow =
        some Status.ok ∧
      (CopyDeviceTensorToCPU ctx orc2 { dev with xla := r.xla } cpuDst).hostBytes =
        x.bytes := by
  rw [copyToDevice_nonempty ctx orc x dev s hne hsh]
  cases hb : dev.xla.buffer with
  | some b =>
    simp only [hb]
    rw [copyBody_raw_ok _ _ _ _ _ _ hraw hblk]
    refine ⟨_, rfl, rfl, ?_, ?_⟩
    · simp [CopyDeviceTensorToCPU, hraw, hdev, hb, hblk2, XlaTensor.rawWrite]
    · simp [CopyDeviceTensorToCPU, hraw, hdev, hb, hblk2, XlaTensor.rawWrite,
        hsize, Tensor.totalBytes]
      exact le_of_eq hsize.symm
  | none =>
    simp only [hb, hal]
    rw [copyBody_raw_ok _ _ _ _ _ _ hraw hblk]
    refine ⟨_, rfl, rfl, ?_, ?_⟩
    · simp [CopyDeviceTensorToCPU, hraw, hdev, hblk2, XlaTensor.rawWrite]
    · simp [CopyDeviceTensorToCPU, hraw, hdev, hblk2, XlaTensor.rawWrite,
        hsize, Tensor.totalBytes]
      exact le_of_eq hsize.symm

/-- Witness for C6: round trip of `hostA` through an empty handle. -/
theorem raw_mode_roundtrip_bytes_witness :
    ∃ r, CopyCPUTensorToDevice ctxRawMulti orcGood hostA devEmpty =
        ToDeviceOutcome.returned r ∧
      r.doneNow = some Status.ok ∧
      (CopyDeviceTensorToCPU ctxRawMulti orcGood { devEmpty with xla := r.xla }
        hostDst).doneNow = some Status.ok ∧
      (CopyDeviceTensorToCPU ctxRawMulti orcGood { devEmpty with xla := r.xla }
        hostDst).hostBytes = hostA.bytes :=
  raw_mode_roundtrip_bytes ctxRawMulti orcGood orcGood hostA hostDst devEmpty [2]
    rfl (by decide) (by decide) rfl rfl rfl rfl (by decide)

/-- C1: a non-empty structured transfer under multiple streams records a
completion event on the host-to-device stream, installs it as the
destination handle's definition event before `CopyToDevice` returns, and a
subsequent `CopyFromDevice` on that handle waits for exactly that event on
the device-to-host stream before issuing its read. -/
theorem structured_multistream_definition_event (ctx : XlaDeviceContext)
    (orc orc2 : Oracle) (cpu cpu2 : Tensor) (dev : DeviceTensor) (s : TensorShape)
    (hlit : ctx.transfer_as_literal = true)
    (hms : ctx.useMultipleStreams = true)
    (hne : cpu.numElements ≠ 0)
    (hdev : numElementsOf dev.shape ≠ 0)
    (hsh : ctx.shape_representation_fn dev.shape dev.dtype = Except.ok s)
    (hal : orc.allocStatus = Status.ok)
    (hcf : numElementsOf s = cpu.numElements)
    (htl : orc.transferLitStatus = Status.ok)
    (hev : orc.eventInitOk = true) :
    ∃ r, CopyCPUTensorToDevice ctx orc cpu dev = ToDeviceOutcome.returned r ∧
      r.doneNow = some Status.ok ∧
      r.xla.definitionEvent = some (orc.eventId, StreamId.hostToDevice) ∧
      Action.recordEvent StreamId.hostToDevice orc.eventId ∈ r.trace ∧
      (CopyDeviceTensorToCPU ctx orc2 { dev with xla := r.xla } cpu2).trace =
        [Action.waitForEvent StreamId.deviceToHost orc.eventId,
         Action.transferLiteralFromDev StreamId.deviceToHost] := by
  rw [copyToDevice_nonempty ctx orc cpu dev s hne hsh]
  cases hb : dev.xla.buffer with
  | some b =>
    simp only [hb]
    rw [copyBody_lit_success _ _ _ _ _ _ hlit hms hcf htl hev]
    refine ⟨_, rfl, rfl, rfl, by simp, ?_⟩
    simp [CopyDeviceTensorToCPU, if_neg hdev, hlit, waitForDefinitionEventOnStream]
  | none =>
    simp only [hb, hal]
    rw [copyBody_lit_success _ _ _ _ _ _ hlit hms hcf htl hev]
    refine ⟨_, rfl, rfl, rfl, by simp, ?_⟩
    simp [CopyDeviceTensorToCPU, if_neg hdev, hlit, waitForDefinitionEventOnStream]

/-- Witness for C1: structured multi-stream copy of `hostA` into a bound
handle, then a read of it. -/
theorem structured_multistream_definition_event_witness :
    ∃ r, CopyCPUTensorToDevice ctxLitMulti orcGood hostA devBound =
        ToDeviceOutcome.returned r ∧
      r.doneNow = some Status.ok ∧
      r.xla.definitionEvent = some (orcGood.eventId, StreamId.hostToDevice) ∧
      Action.recordEvent StreamId.hostToDevice orcGood.eventId ∈ r.trace ∧
      (CopyDeviceTensorToCPU ctxLitMulti orcGood { devBound with xla := r.xla }
        hostDst).trace =
        [Action.waitForEvent StreamId.deviceToHost orcGood.eventId,
         Action.transferLiteralFromDev StreamId.deviceToHost] :=
  structured_multistream_definition_event ctxLitMulti orcGood orcGood hostA hostDst
    devBound [2] rfl rfl (by decide) (by decide) rfl rfl (by decide) rfl rfl

/-- C7: when a raw byte-copy drain fails, the host-to-device direction
names the host-to-device stream in the error it hands to `done`, but the
device-to-host direction formats the compute stream (`stream_`) into its
message, not the device-to-host stream the transfer ran on. -/
theorem d2h_drain_error_names_compute_stream :
    (CopyCPUTensorToDevice ctxRawMulti orcBlockFail hostA devBound).doneOf =
      some (Status.err "Failed to complete data transfer on stream host_to_device: boom") ∧
    (CopyDeviceTensorToCPU ctxRawMulti orcBlockFail devBound hostDst).doneNow =
      some (Status.err "Failed to complete data transfer on stream compute: boom") ∧
    (CopyDeviceTensorToCPU ctxRawMulti orcBlockFail devBound hostDst).doneNow ≠
      some (Status.err "Failed to complete data transfer on stream device_to_host: boom") := by
  refine ⟨?_, ?_, ?_⟩ <;> decide

/-- C8: a failing completion-event initialization during a non-empty
structured multi-stream copy aborts the call fatally; `done` is never
invoked with the error. -/
theorem event_failure_aborts (ctx : XlaDeviceContext) (orc : Oracle)
    (cpu : Tensor) (dev : DeviceTensor) (s : TensorShape)
    (hlit : ctx.transfer_as_literal = true)
    (hms : ctx.useMultipleStreams = true)
    (hne : cpu.numElements ≠ 0)
    (hsh : ctx.shape_representation_fn dev.shape dev.dtype = Except.ok s)
    (hal : orc.allocStatus = Status.ok)
    (hcf : numElementsOf s = cpu.numElements)
    (htl : orc.transferLitStatus = Status.ok)
    (hev : orc.eventInitOk = false) :
    CopyCPUTensorToDevice ctx orc cpu dev =
      ToDeviceOutcome.fatal "Event failed to initialize!" := by
  rw [copyToDevice_nonempty ctx orc cpu dev s hne hsh]
  cases hb : dev.xla.buffer with
  | some b =>
    simp only [hb]
    rw [copyBody_lit_fatal _ _ _ _ _ _ hlit hms hcf htl hev]
  | none =>
    simp only [hb, hal]
    rw [copyBody_lit_fatal _ _ _ _ _ _ hlit hms hcf htl hev]

/-- Witness for C8: the event fails to initialize during a structured
multi-stream copy into a bound handle. -/
theorem event_failure_aborts_witness :
    CopyCPUTensorToDevice ctxLitMulti orcEventFail hostA devBound =
      ToDeviceOutcome.fatal "Event failed to initialize!" :=
  event_failure_aborts ctxLitMulti orcEventFail hostA devBound [2]
    rfl rfl (by decide) rfl rfl (by decide) rfl rfl

/-- C9: in a successful structured multi-stream copy, when buffer access is
not already guaranteed coincident with the compute stream, the
host-to-device stream's wait on the compute stream is issued immediately
before the literal transfer; when access is guaranteed, or in single-stream
mode, no cross-stream wait is issued at all. -/
theorem compute_stream_wait_iff_not_guaranteed (ctx : XlaDeviceContext) (orc : Oracle)
    (cpu : Tensor) (dev : DeviceTensor) (s : TensorShape)
    (hlit : ctx.transfer_as_literal = true)
    (hne : cpu.numElements ≠ 0)
    (hsh : ctx.shape_representation_fn dev.shape dev.dtype = Except.ok s)
    (hal : orc.allocStatus = Status.ok)
    (hcf : numElementsOf s = cpu.numElements)
    (htl : orc.transferLitStatus = Status.ok)
    (hev : orc.eventInitOk = true) :
    (ctx.useMultipleStreams = true → orc.canAccessNow = false →
      ∃ r l1 l2, CopyCPUTensorToDevice ctx orc cpu dev = ToDeviceOutcome.returned r ∧
        r.trace = l1 ++ ([Action.waitForStream StreamId.hostToDevice StreamId.compute,
          Action.transferLiteralToDev StreamId.hostToDevice] ++ l2)) ∧
    (ctx.useMultipleStreams = true → orc.canAccessNow = true →
      ∃ r, CopyCPUTensorToDevice ctx orc cpu dev = ToDeviceOutcome.returned r ∧
        ∀ a b, Action.waitForStream a b ∉ r.trace) ∧
    (ctx.useMultipleStreams = false →
      ∃ r, CopyCPUTensorToDevice ctx orc cpu dev = ToDeviceOutcome.returned r ∧
        ∀ a b, Action.waitForStream a b ∉ r.trace) := by
  refine ⟨fun hms hacc => ?_, fun hms hacc => ?_, fun hms => ?_⟩ <;>
    rw [copyToDevice_nonempty ctx orc cpu dev s hne hsh]
  · cases hb : dev.xla.buffer with
    | some b =>
      simp only [hb]
      rw [copyBody_lit_success _ _ _ _ _ _ hlit hms hcf htl hev]
      exact ⟨_, [Action.callShapeFn dev.shape dev.dtype],
        [Action.recordEvent StreamId.hostToDevice orc.eventId,
         Action.hostCallback StreamId.hostToDevice], rfl, by simp [hacc]⟩
    | none =>
      simp only [hb, hal]
      rw [copyBody_lit_success _ _ _ _ _ _ hlit hms hcf htl hev]
      exact ⟨_, [Action.callShapeFn dev.shape dev.dtype, Action.allocateBuffer dev.dtype s],
        [Action.recordEvent StreamId.hostToDevice orc.eventId,
         Action.hostCallback StreamId.hostToDevice], rfl, by simp [hacc]⟩
  · cases hb : dev.xla.buffer with
    | some b =>
      simp only [hb]
      rw [copyBody_lit_success _ _ _ _ _ _ hlit hms hcf htl hev]
      exact ⟨_, rfl, by intro a c; simp [hacc]⟩
    | none =>
      simp only [hb, hal]
      rw [copyBody_lit_success _ _ _ _ _ _ hlit hms hcf htl hev]
      exact ⟨_, rfl, by intro a c; simp [hacc]⟩
  · cases hb : dev.xla.buffer with
    | some b =>
      simp only [hb]
      rw [copyBody_lit_single _ _ _ _ _ _ hlit hms hcf htl]
      exact ⟨_, rfl, by intro a c; simp⟩
    | none =>
      simp only [hb, hal]
      rw [copyBody_lit_single _ _ _ _ _ _ hlit hms hcf htl]
      exact ⟨_, rfl, by intro a c; simp⟩

/-- Witness for C9: the three configurations at concrete inputs. -/
theorem compute_stream_wait_iff_not_guaranteed_witness :
    (∃ r l1 l2, CopyCPUTensorToDevice ctxLitMulti orcGood hostA devBound =
        ToDeviceOutcome.returned r ∧
      r.trace = l1 ++ ([Action.waitForStream StreamId.hostToDevice StreamId.compute,
        Action.transferLiteralToDev StreamId.hostToDevice] ++ l2)) ∧
    (∃ r, CopyCPUTensorToDevice ctxLitMulti orcAccessNow hostA devBound =
        ToDeviceOutcome.returned r ∧
      ∀ a b, Action.waitForStream a b ∉ r.trace) ∧
    (∃ r, CopyCPUTensorToDevice ctxLitSingle orcGood hostA devBound =
        ToDeviceOutcome.returned r ∧
      ∀ a b, Action.waitForStream a b ∉ r.trace) :=
  ⟨(compute_stream_wait_iff_not_guaranteed ctxLitMulti orcGood hostA devBound [2]
      rfl (by decide) rfl rfl (by decide) rfl rfl).1 rfl rfl,
   (compute_stream_wait_iff_not_guaranteed ctxLitMulti orcAccessNow hostA devBound [2]
      rfl (by decide) rfl rfl (by decide) rfl rfl).2.1 rfl rfl,
   (compute_stream_wait_iff_not_guaranteed ctxLitSingle orcGood hostA devBound [2]
      rfl (by decide) rfl rfl (by decide) rfl rfl).2.2 rfl⟩

/-- C10: in structured mode, when the resolved on-device shape's element
count disagrees with the host tensor's, the reshaping copy fails and `done`
receives the internal `Tensor::CopyFrom` error with no stream touched. -/
theorem copyfrom_mismatch_internal_error (ctx : XlaDeviceContext) (orc : Oracle)
    (cpu : Tensor) (dev : DeviceTensor) (s : TensorShape)
    (hlit : ctx.transfer_as_literal = true)
    (hne : cpu.numElements ≠ 0)
    (hsh : ctx.shape_representation_fn dev.shape dev.dtype = Except.ok s)
    (hal : orc.allocStatus = Status.ok)
    (hmm : numElementsOf s ≠ cpu.numElements) :
    ∃ r, CopyCPUTensorToDevice ctx orc cpu dev = ToDeviceOutcome.returned r ∧
      r.doneNow = some (Status.err
        "Tensor::CopyFrom failed when copying from CPU to XLA device") ∧
      r.trace.all (fun a => !a.touchesStream) = true := by
  rw [copyToDevice_nonempty ctx orc cpu dev s hne hsh]
  cases hb : dev.xla.buffer with
  | some b =>
    simp only [hb]
    rw [copyBody_lit_mismatch _ _ _ _ _ _ hlit hmm]
    exact ⟨_, rfl, rfl, by simp [Action.touchesStream]⟩
  | none =>
    simp only [hb, hal]
    rw [copyBody_lit_mismatch _ _ _ _ _ _ hlit hmm]
    exact ⟨_, rfl, rfl, by simp [Action.touchesStream]⟩

/-- Witness for C10: a three-element host tensor against resolved shape
`[2]`. -/
theorem copyfrom_mismatch_internal_error_witness :
    ∃ r, CopyCPUTensorToDevice ctxLitMulti orcGood hostMism devBound =
        ToDeviceOutcome.returned r ∧
      r.doneNow = some (Status.err
        "Tensor::CopyFrom failed when copying from CPU to XLA device") ∧
      r.trace.all (fun a => !a.touchesStream) = true :=
  copyfrom_mismatch_internal_error ctxLitMulti orcGood hostMism devBound [2]
    rfl (by decide) rfl rfl (by decide)

end XlaDC
